import Mathlib

/-!
# Verification of the opencode-canvas protocol engine

A shallow embedding of the `canvas` Go package (protocol.go, server.go) and
its client (client.go): message envelope and payload (de)serialization is
modelled at the level of JSON value trees, server dispatch and the
per-connection read loop as pure functions, and uncontrolled failures
(Go panics) in model capability code as an explicit `GoRes.panics` outcome,
since the source contains no `recover`.
-/

set_option maxHeartbeats 1000000

namespace Canvas

/-- A JSON value tree. Models the values produced/consumed by Go's
`encoding/json`; numbers are restricted to integers, which covers every
numeric field in the catalogue (`width`, `height`, `cursor`, `rune`).
Objects are association lists in emission order; the codec below never
emits duplicate keys. -/
inductive JValue where
  | null : JValue
  | bool (b : Bool) : JValue
  | num (n : Int) : JValue
  | str (s : String) : JValue
  | arr (xs : List JValue) : JValue
  | obj (fields : List (String × JValue)) : JValue


/-- Field lookup in a JSON object. First match wins; Go's decoder lets a
later duplicate key overwrite, but the codec in this package never emits
duplicate keys, on which domain the two agree. -/
def lookupField : List (String × JValue) → String → Option JValue
  | [], _ => none
  | (k, v) :: rest, key => if k = key then some v else lookupField rest key

/-- Go `MessageType` identifies the type of IPC message (a Go string type). -/
abbrev MessageType := String

def MsgGetState : MessageType := "get_state"
def MsgGetView : MessageType := "get_view"
def MsgSendKey : MessageType := "send_key"
def MsgSendInput : MessageType := "send_input"
def MsgClose : MessageType := "close"

def MsgState : MessageType := "state"
def MsgView : MessageType := "view"
def MsgAck : MessageType := "ack"
def MsgError : MessageType := "error"

def MsgReady : MessageType := "ready"
def MsgUpdated : MessageType := "updated"
def MsgSelected : MessageType := "selected"
def MsgCancelled : MessageType := "cancelled"

/-- The base IPC message structure: `{Type MessageType; Payload json.RawMessage}`
with `payload,omitempty`. An absent payload (`nil` RawMessage) is `none`. -/
structure Message where
  type : MessageType
  payload : Option JValue


/-- Go `StatePayload`: the TUI's current state. Every field carries
`omitempty`; `Custom` is a `map[string]any`, modelled as an association
list of JSON values. -/
structure StatePayload where
  custom : List (String × JValue)
  width : Int
  height : Int
  focused : Bool
  mode : String
  input : String
  cursor : Int


/-- The Go zero value of `StatePayload` (nil map, zeros, empty strings). -/
def zeroState : StatePayload := ⟨[], 0, 0, false, "", "", 0⟩

/-- Go `ViewPayload`: rendered view content plus ANSI flag (no omitempty). -/
structure ViewPayload where
  content : String
  ansi : Bool


def zeroView : ViewPayload := ⟨"", false⟩

/-- Go `KeyPayload`: symbolic key name plus optional literal rune
(`rune,omitempty`). -/
structure KeyPayload where
  key : String
  rune : Int


def zeroKey : KeyPayload := ⟨"", 0⟩

/-- Go `InputPayload`: literal text input. -/
structure InputPayload where
  text : String


def zeroInput : InputPayload := ⟨""⟩

/-- Go `ErrorPayload`: `{code, message}`. -/
structure ErrorPayload where
  code : String
  message : String


def zeroError : ErrorPayload := ⟨"", ""⟩

/-! ## Marshalling (Go `json.Marshal` of the catalogued payload shapes) -/

/-- Emptiness of a list is decidable without decidable equality of the
elements (models Go's `len(m) == 0` test behind `omitempty`). -/
instance {α : Type} (xs : List α) : Decidable (xs = []) :=
  match xs with
  | [] => .isTrue rfl
  | _ :: _ => .isFalse (fun h => List.noConfusion h)

/-- Go `json.Marshal` of `StatePayload`: each field is emitted unless it holds
its zero value (`omitempty` on every field), in struct declaration order. -/
def marshalState (s : StatePayload) : JValue :=
  .obj ((if s.custom = [] then [] else [("custom", JValue.obj s.custom)]) ++
        (if s.width = 0 then [] else [("width", JValue.num s.width)]) ++
        (if s.height = 0 then [] else [("height", JValue.num s.height)]) ++
        (if s.focused = false then [] else [("focused", JValue.bool s.focused)]) ++
        (if s.mode = "" then [] else [("mode", JValue.str s.mode)]) ++
        (if s.input = "" then [] else [("input", JValue.str s.input)]) ++
        (if s.cursor = 0 then [] else [("cursor", JValue.num s.cursor)]))

/-- Go `json.Marshal` of `ViewPayload` (both fields always emitted). -/
def marshalView (v : ViewPayload) : JValue :=
  .obj [("content", .str v.content), ("ansi", .bool v.ansi)]

/-- Go `json.Marshal` of `KeyPayload` (`rune` omitted when zero). -/
def marshalKey (k : KeyPayload) : JValue :=
  .obj (("key", JValue.str k.key) ::
        (if k.rune = 0 then [] else [("rune", JValue.num k.rune)]))

/-- Go `json.Marshal` of `InputPayload`. -/
def marshalInput (i : InputPayload) : JValue :=
  .obj [("text", .str i.text)]

/-- Go `json.Marshal` of `ErrorPayload`. -/
def marshalError (e : ErrorPayload) : JValue :=
  .obj [("code", .str e.code), ("message", .str e.message)]

/-! ## Unmarshalling (Go `json.Unmarshal` into the payload shapes)

Go's decoder accepts a JSON object (or `null`, a no-op) for a struct
target; an absent field leaves the zero value, a `null` field is a no-op,
and a field of the wrong JSON kind is an error. -/

/-- Read a string field: absent or `null` leaves the zero value `""`;
a non-string value is a decode error. -/
def getStr (fs : List (String × JValue)) (k : String) : Except String String :=
  match lookupField fs k with
  | none => .ok ""
  | some .null => .ok ""
  | some (.str s) => .ok s
  | some _ => .error ("json: cannot unmarshal into Go struct field of type string: " ++ k)

/-- Read an integer field: absent or `null` leaves `0`. -/
def getInt (fs : List (String × JValue)) (k : String) : Except String Int :=
  match lookupField fs k with
  | none => .ok 0
  | some .null => .ok 0
  | some (.num n) => .ok n
  | some _ => .error ("json: cannot unmarshal into Go struct field of type int: " ++ k)

/-- Read a boolean field: absent or `null` leaves `false`. -/
def getBool (fs : List (String × JValue)) (k : String) : Except String Bool :=
  match lookupField fs k with
  | none => .ok false
  | some .null => .ok false
  | some (.bool b) => .ok b
  | some _ => .error ("json: cannot unmarshal into Go struct field of type bool: " ++ k)

/-- Read the `custom` map field: absent or `null` leaves the nil map. -/
def getCustom (fs : List (String × JValue)) (k : String) :
    Except String (List (String × JValue)) :=
  match lookupField fs k with
  | none => .ok []
  | some .null => .ok []
  | some (.obj cs) => .ok cs
  | some _ => .error ("json: cannot unmarshal into Go struct field of type map: " ++ k)

/-- Go `json.Unmarshal` into a `StatePayload` target. -/
def unmarshalState : JValue → Except String StatePayload
  | .null => .ok zeroState
  | .obj fs => do
      let custom ← getCustom fs "custom"
      let width ← getInt fs "width"
      let height ← getInt fs "height"
      let focused ← getBool fs "focused"
      let mode ← getStr fs "mode"
      let input ← getStr fs "input"
      let cursor ← getInt fs "cursor"
      .ok ⟨custom, width, height, focused, mode, input, cursor⟩
  | _ => .error "json: cannot unmarshal into Go value of type canvas.StatePayload"

/-- Go `json.Unmarshal` into a `ViewPayload` target. -/
def unmarshalView : JValue → Except String ViewPayload
  | .null => .ok zeroView
  | .obj fs => do
      let content ← getStr fs "content"
      let ansi ← getBool fs "ansi"
      .ok ⟨content, ansi⟩
  | _ => .error "json: cannot unmarshal into Go value of type canvas.ViewPayload"

/-- Go `json.Unmarshal` into a `KeyPayload` target. -/
def unmarshalKey : JValue → Except String KeyPayload
  | .null => .ok zeroKey
  | .obj fs => do
      let key ← getStr fs "key"
      let rn ← getInt fs "rune"
      .ok ⟨key, rn⟩
  | _ => .error "json: cannot unmarshal into Go value of type canvas.KeyPayload"

/-- Go `json.Unmarshal` into an `InputPayload` target. -/
def unmarshalInput : JValue → Except String InputPayload
  | .null => .ok zeroInput
  | .obj fs => do
      let text ← getStr fs "text"
      .ok ⟨text⟩
  | _ => .error "json: cannot unmarshal into Go value of type canvas.InputPayload"

/-- Go `json.Unmarshal` into an `ErrorPayload` target. -/
def unmarshalError : JValue → Except String ErrorPayload
  | .null => .ok zeroError
  | .obj fs => do
      let code ← getStr fs "code"
      let message ← getStr fs "message"
      .ok ⟨code, message⟩
  | _ => .error "json: cannot unmarshal into Go value of type canvas.ErrorPayload"

/-! ## Envelope codec and `NewMessage` / `ParsePayload` (protocol.go) -/

/-- The catalogued payload shapes a message can carry (`nil`, or one of the
five typed payloads of protocol.go). -/
inductive Payload where
  | noPayload : Payload
  | state (s : StatePayload) : Payload
  | view (v : ViewPayload) : Payload
  | key (k : KeyPayload) : Payload
  | input (i : InputPayload) : Payload
  | error (e : ErrorPayload) : Payload

/-- Go `json.Marshal` of a catalogued payload (`nil` marshals to no raw
payload). On these shapes marshalling never fails, so the error return of
Go's `json.Marshal` does not arise. -/
def marshalPayload : Payload → Option JValue
  | .noPayload => none
  | .state s => some (marshalState s)
  | .view v => some (marshalView v)
  | .key k => some (marshalKey k)
  | .input i => some (marshalInput i)
  | .error e => some (marshalError e)

/-- Go `NewMessage(t, payload)`: marshal the payload (if non-nil) and build the
envelope. On the catalogued shapes the marshal step cannot fail, so the
error return does not arise. -/
def NewMessage (t : MessageType) (p : Payload) : Message :=
  { type := t, payload := marshalPayload p }

/-- Go `json.Marshal` of a `Message` envelope: `type` always emitted,
`payload` emitted only when the raw payload is non-nil (`omitempty`). -/
def encodeMessage (m : Message) : JValue :=
  .obj (("type", JValue.str m.type) ::
        (match m.payload with
         | some p => [("payload", p)]
         | none => []))

/-- Go `json.Unmarshal` of bytes holding JSON value `v` into a `Message`
target: the value must be an object; the `type` field, when present, must
be a string; the `payload` field, being `json.RawMessage`, is kept as-is
whatever its shape. -/
def decodeMessage : JValue → Except String Message
  | .null => .ok { type := "", payload := none }
  | .obj fs =>
      match lookupField fs "type" with
      | none => .ok { type := "", payload := lookupField fs "payload" }
      | some .null => .ok { type := "", payload := lookupField fs "payload" }
      | some (.str s) => .ok { type := s, payload := lookupField fs "payload" }
      | some _ => .error "json: cannot unmarshal into Go value of type canvas.MessageType"
  | _ => .error "json: cannot unmarshal into Go value of type canvas.Message"

/-- Go `Message.ParsePayload` into a `StatePayload` target: a `nil` payload
returns `nil` leaving the (zero-valued) target untouched. -/
def parsePayloadState (m : Message) : Except String StatePayload :=
  match m.payload with
  | none => .ok zeroState
  | some v => unmarshalState v

/-- Go `Message.ParsePayload` into a `ViewPayload` target. -/
def parsePayloadView (m : Message) : Except String ViewPayload :=
  match m.payload with
  | none => .ok zeroView
  | some v => unmarshalView v

/-- Go `Message.ParsePayload` into a `KeyPayload` target. -/
def parsePayloadKey (m : Message) : Except String KeyPayload :=
  match m.payload with
  | none => .ok zeroKey
  | some v => unmarshalKey v

/-- Go `Message.ParsePayload` into an `InputPayload` target. -/
def parsePayloadInput (m : Message) : Except String InputPayload :=
  match m.payload with
  | none => .ok zeroInput
  | some v => unmarshalInput v

/-- Go `Message.ParsePayload` into an `ErrorPayload` target. -/
def parsePayloadError (m : Message) : Except String ErrorPayload :=
  match m.payload with
  | none => .ok zeroError
  | some v => unmarshalError v

/-! ## Server-side dispatch (server.go)

A Go panic raised inside model capability code is modelled explicitly:
each capability invocation yields a `GoRes`, either a normal return or a
`panics` outcome. server.go contains no `recover`, so dispatch propagates
a panic outward (ending the connection goroutine and, per Go semantics,
the process). -/

/-- Outcome of running a piece of Go code: a normal return or an
uncontrolled `panic`. -/
inductive GoRes (α : Type) where
  | ok (a : α) : GoRes α
  | panics (msg : String) : GoRes α

def GoRes.map {α β : Type} (f : α → β) : GoRes α → GoRes β
  | .ok a => .ok (f a)
  | .panics e => .panics e

/-- The registered TUI model, as the set of optional capability surfaces
server.go probes by interface assertion. Invoking a capability either
returns normally or panics:
* `stateProvider`: outcome of `CanvasState()`;
* `viewProvider`: outcome of `CanvasView()`;
* `keyHandler`: `HandleCanvasKey(key, r)`, normal return `none` = nil
  error, `some e` = error with message `e`;
* `inputHandler`: `HandleCanvasInput(text)`, same convention. -/
structure CanvasModel where
  stateProvider : Option (GoRes StatePayload)
  viewProvider : Option (GoRes String)
  keyHandler : Option (String → Int → GoRes (Option String))
  inputHandler : Option (String → GoRes (Option String))

/-- A model exposing no capability at all (`SetModel` never called, Go
`nil` model: every interface assertion fails). -/
def nilModel : CanvasModel := ⟨none, none, none, none⟩

/-- The server state dispatch depends on: the model snapshot and the
optional close callback (whose invocation may itself panic). -/
structure ServerState where
  model : CanvasModel
  onClose : Option (GoRes Unit)

/-- Go `Server.sendError`: encode an `error` message with the given code and
message on the connection. -/
def sendError (code message : String) : Message :=
  NewMessage MsgError (.error ⟨code, message⟩)

/-- The `send_key` arm declares `var payload KeyPayload` and ignores the
error of `msg.ParsePayload(&payload)`, so each field holds its decoded
value when the payload is an object carrying it with the right JSON kind,
and its zero value otherwise. -/
def looseKeyPayload (m : Message) : KeyPayload :=
  match m.payload with
  | some (.obj fs) =>
      { key := match lookupField fs "key" with
               | some (.str s) => s
               | _ => ""
        rune := match lookupField fs "rune" with
                | some (.num n) => n
                | _ => 0 }
  | _ => zeroKey

/-- The `send_input` arm likewise ignores the `ParsePayload` error. -/
def looseInputPayload (m : Message) : InputPayload :=
  match m.payload with
  | some (.obj fs) =>
      { text := match lookupField fs "text" with
                | some (.str s) => s
                | _ => "" }
  | _ => zeroInput

/-- Go `Server.handleMessage`: snapshot the model under the read lock, then
dispatch on the message type. The result is the one response written on
the connection, or the propagated panic when capability code panics
(there is no `recover` on the path). `ParsePayload` errors for
`send_key`/`send_input` are ignored by the source, so the payload is
parsed best-effort (fields that do not decode keep their zero value). -/
def handleMessage (srv : ServerState) (msg : Message) : GoRes Message :=
  if msg.type = MsgGetState then
    match srv.model.stateProvider with
    | some (.ok state) => .ok (NewMessage MsgState (.state state))
    | some (.panics e) => .panics e
    | none => .ok (sendError "not_supported" "model does not implement StateProvider")
  else if msg.type = MsgGetView then
    match srv.model.viewProvider with
    | some (.ok view) => .ok (NewMessage MsgView (.view ⟨view, true⟩))
    | some (.panics e) => .panics e
    | none => .ok (sendError "not_supported" "model does not implement ViewProvider")
  else if msg.type = MsgSendKey then
    match srv.model.keyHandler with
    | some kh =>
        let payload := looseKeyPayload msg
        match kh payload.key payload.rune with
        | .ok (some err) => .ok (sendError "key_error" err)
        | .ok none => .ok (NewMessage MsgAck .noPayload)
        | .panics e => .panics e
    | none => .ok (sendError "not_supported" "model does not implement KeyHandler")
  else if msg.type = MsgSendInput then
    match srv.model.inputHandler with
    | some ih =>
        let payload := looseInputPayload msg
        match ih payload.text with
        | .ok (some err) => .ok (sendError "input_error" err)
        | .ok none => .ok (NewMessage MsgAck .noPayload)
        | .panics e => .panics e
    | none => .ok (sendError "not_supported" "model does not implement InputHandler")
  else if msg.type = MsgClose then
    match srv.onClose with
    | some (.ok _) => .ok (NewMessage MsgAck .noPayload)
    | some (.panics e) => .panics e
    | none => .ok (NewMessage MsgAck .noPayload)
  else
    .ok (sendError "unknown_type" ("unknown message type: " ++ msg.type))

/-! ## Per-connection read loop (server.go `handleConnection`) -/

/-- One newline-terminated line received on a connection, as seen after
Go's `json.Unmarshal(line, &msg)` syntactic stage: either the bytes are
not valid JSON (`fail` with the decoder's error text), or they parse to a
JSON value which is then decoded into a `Message` envelope. -/
inductive IncomingLine where
  | fail (e : String) : IncomingLine
  | json (v : JValue) : IncomingLine

/-- Handling of one received line in the read loop: an unmarshal failure
(syntactic or structural) is answered with a `parse_error` response and
the loop continues; otherwise the message is dispatched. -/
def handleLine (srv : ServerState) : IncomingLine → GoRes Message
  | .fail e => .ok (sendError "parse_error" e)
  | .json v =>
      match decodeMessage v with
      | .error e => .ok (sendError "parse_error" e)
      | .ok m => handleMessage srv m

/-- Go `Server.handleConnection`: the unbounded per-connection read loop over
the lines received until the peer disconnects (end of the list, which ends
the loop via the read error). The result is the ordered list of responses
written on that same connection, or the propagated panic that terminates
the connection goroutine when a handler panics. -/
def processConn (srv : ServerState) : List IncomingLine → GoRes (List Message)
  | [] => .ok []
  | l :: rest =>
      match handleLine srv l with
      | .panics e => .panics e
      | .ok resp => (processConn srv rest).map (fun ms => resp :: ms)

/-! ## `Server.SendEvent` (server.go) -/

/-- Go `Server.SendEvent`: build the event message, then — there being no
connection registry — discard it. The returned pair is the Go error
result together with the list of messages actually written to
connections, which is always empty. On the catalogued payload shapes the
`NewMessage` step cannot fail. -/
def SendEvent (msgType : MessageType) (payload : Payload) :
    Except String Unit × List Message :=
  let _msg := NewMessage msgType payload
  (.ok (), [])

/-! ## Addressing (server.go `DefaultSocketDir` / `SocketPath`)

`filepath.Join` is modelled for the case exercised here — joining a
directory path with a single relative component containing no separator —
where it appends a `/` and the component. The temporary directory
(`os.TempDir()`) is passed explicitly, making the environment dependence
a parameter. -/

/-- Model of Go `filepath.Join` restricted to a nonempty base and a single
separator-free relative component (the only case used by this package). -/
def filepathJoin (dir name : String) : String := dir ++ "/" ++ name

/-- Go `DefaultSocketDir`: `filepath.Join(os.TempDir(), "opencode-canvas")`. -/
def DefaultSocketDir (tmpDir : String) : String :=
  filepathJoin tmpDir "opencode-canvas"

/-- Go `SocketPath(id)`: `filepath.Join(DefaultSocketDir(), id + ".sock")`. -/
def SocketPath (tmpDir id : String) : String :=
  filepathJoin (DefaultSocketDir tmpDir) (id ++ ".sock")

/-- A filesystem-safe id: usable as a single path component, i.e. it
contains no path separator (so `filepath.Join` performs no cleaning). -/
def fsSafe (id : String) : Prop := '/' ∉ id.data

instance (id : String) : Decidable (fsSafe id) :=
  decidable_of_iff ('/' ∉ id.data) Iff.rfl

/-! ## Client (client.go) -/

/-- Outcome of the transport exchange performed by `Client.send` for one
call: dialing can fail (no listener bound, timeout), the framed write or
the framed read can fail (peer gone, deadline exceeded), the response
line can fail to unmarshal, or a response envelope is obtained. -/
inductive TransportResult where
  | dialFail (e : String) : TransportResult
  | writeFail (e : String) : TransportResult
  | readFail (e : String) : TransportResult
  | badResponse (e : String) : TransportResult
  | ok (resp : Message) : TransportResult

/-- Go `Client.send`: maps each transport-stage failure to the wrapped error
the source returns, and a decoded response line to that response. -/
def clientSend : TransportResult → Except String Message
  | .dialFail e => .error ("failed to connect to canvas: " ++ e)
  | .writeFail e => .error ("failed to send message: " ++ e)
  | .readFail e => .error ("failed to read response: " ++ e)
  | .badResponse e => .error ("failed to parse response: " ++ e)
  | .ok resp => .ok resp

/-- The error-response branch shared by `GetState`/`GetView`/`SendKey`/
`SendInput`: `resp.ParsePayload(&errPayload)` with its error ignored (so
fields decode best-effort), then `fmt.Errorf("%s: %s", code, message)`. -/
def looseErrorPayload (m : Message) : ErrorPayload :=
  match m.payload with
  | some (.obj fs) =>
      { code := match lookupField fs "code" with
                | some (.str s) => s
                | _ => ""
        message := match lookupField fs "message" with
                   | some (.str s) => s
                   | _ => "" }
  | _ => zeroError

/-- Go `Client.GetState` as a function of the transport outcome. -/
def GetState (t : TransportResult) : Except String StatePayload :=
  match clientSend t with
  | .error e => .error e
  | .ok resp =>
      if resp.type = MsgError then
        let ep := looseErrorPayload resp
        .error (ep.code ++ ": " ++ ep.message)
      else
        match parsePayloadState resp with
        | .error e => .error e
        | .ok state => .ok state

/-- Go `Client.GetView` as a function of the transport outcome. -/
def GetView (t : TransportResult) : Except String String :=
  match clientSend t with
  | .error e => .error e
  | .ok resp =>
      if resp.type = MsgError then
        let ep := looseErrorPayload resp
        .error (ep.code ++ ": " ++ ep.message)
      else
        match parsePayloadView resp with
        | .error e => .error e
        | .ok view => .ok view.content

/-- The request `Client.SendKey` sends: `KeyPayload{Key: key}` (the rune
field left at its zero value). -/
def clientSendKeyMsg (key : String) : Message :=
  NewMessage MsgSendKey (.key { key := key, rune := 0 })

/-- Go `Client.SendKey` as a function of the transport outcome. -/
def SendKey (t : TransportResult) : Except String Unit :=
  match clientSend t with
  | .error e => .error e
  | .ok resp =>
      if resp.type = MsgError then
        let ep := looseErrorPayload resp
        .error (ep.code ++ ": " ++ ep.message)
      else
        .ok ()

/-- Go `Client.SendInput` as a function of the transport outcome. -/
def SendInput (t : TransportResult) : Except String Unit :=
  match clientSend t with
  | .error e => .error e
  | .ok resp =>
      if resp.type = MsgError then
        let ep := looseErrorPayload resp
        .error (ep.code ++ ": " ++ ep.message)
      else
        .ok ()

/-- Go `Client.Close`: `_, err := c.send(MsgClose, nil); return err` — the
response envelope itself is discarded. -/
def Close (t : TransportResult) : Except String Unit :=
  match clientSend t with
  | .error e => .error e
  | .ok _ => .ok ()

/-- Go `Client.Ping`: `_, err := c.GetState(); return err == nil`. -/
def Ping (t : TransportResult) : Bool :=
  match GetState t with
  | .ok _ => true
  | .error _ => false

/-! ## End-to-end exchange over the Unix socket -/

/-- The network as the client sees one id: either no listener is bound at
`address(id)`, or a listener serving the given server state is. -/
def Network := Option ServerState

/-- The transport exchange of one `get_state` call against the network:
with no listener bound the dial fails with a connection error; with a
listener, the request line reaches the server's read loop, whose
response is encoded on the wire and decoded by the client — unless the
dispatch panics, in which case the connection dies before any response
and the client's read fails. -/
def stateExchange : Network → TransportResult
  | none => .dialFail "dial unix: connect: no such file or directory"
  | some srv =>
      match handleMessage srv (NewMessage MsgGetState .noPayload) with
      | .panics _ => .readFail "EOF"
      | .ok resp =>
          match decodeMessage (encodeMessage resp) with
          | .ok r => .ok r
          | .error e => .badResponse e

/-- Go `Client.Ping` against the network. -/
def PingNet (net : Network) : Bool := Ping (stateExchange net)

/-! ## Codec round-trip lemmas -/

theorem decode_encode (m : Message) : decodeMessage (encodeMessage m) = .ok m := by
  obtain ⟨t, p⟩ := m
  cases p <;> simp [encodeMessage, decodeMessage, lookupField]

theorem unmarshal_marshal_state (s : StatePayload) :
    unmarshalState (marshalState s) = .ok s := by
  obtain ⟨c, w, h, f, m, i, cur⟩ := s
  simp only [marshalState, unmarshalState]
  split_ifs <;>
    simp_all [getCustom, getInt, getBool, getStr, lookupField, Bind.bind, Except.bind]

theorem unmarshal_marshal_view (v : ViewPayload) :
    unmarshalView (marshalView v) = .ok v := by
  obtain ⟨c, a⟩ := v
  simp [marshalView, unmarshalView, getStr, getBool, lookupField, Bind.bind, Except.bind]

theorem unmarshal_marshal_key (k : KeyPayload) :
    unmarshalKey (marshalKey k) = .ok k := by
  obtain ⟨key, r⟩ := k
  simp only [marshalKey, unmarshalKey]
  split_ifs <;>
    simp_all [getStr, getInt, lookupField, Bind.bind, Except.bind]

theorem unmarshal_marshal_input (i : InputPayload) :
    unmarshalInput (marshalInput i) = .ok i := by
  obtain ⟨t⟩ := i
  simp [marshalInput, unmarshalInput, getStr, lookupField, Bind.bind, Except.bind]

theorem unmarshal_marshal_error (e : ErrorPayload) :
    unmarshalError (marshalError e) = .ok e := by
  obtain ⟨c, m⟩ := e
  simp [marshalError, unmarshalError, getStr, lookupField, Bind.bind, Except.bind]

/-- Reparsing a marshalled payload through `ParsePayload` at its own shape
recovers the original (the payload half of the encode/decode round trip);
a `nil` payload corresponds to an absent wire payload. -/
def payloadRoundTrips (p : Payload) (m : Message) : Prop :=
  match p with
  | .noPayload => m.payload = none
  | .state s => parsePayloadState m = .ok s
  | .view v => parsePayloadView m = .ok v
  | .key k => parsePayloadKey m = .ok k
  | .input i => parsePayloadInput m = .ok i
  | .error e => parsePayloadError m = .ok e

/-! ## Claim theorems -/

/-- C2: for every catalogued message type and every payload that serializes
(which, on the catalogued shapes, is every payload), decoding the encoding
of `NewMessage t p` yields the same envelope, and reparsing its payload at
the original shape recovers `p`; and `ParsePayload` on a message with an
absent payload returns the target shape's zero value with no error. -/
theorem c2_codec_roundtrip :
    (∀ (t : MessageType) (p : Payload),
       decodeMessage (encodeMessage (NewMessage t p)) = .ok (NewMessage t p) ∧
       payloadRoundTrips p (NewMessage t p)) ∧
    (∀ t : MessageType,
       parsePayloadState ⟨t, none⟩ = .ok zeroState ∧
       parsePayloadView ⟨t, none⟩ = .ok zeroView ∧
       parsePayloadKey ⟨t, none⟩ = .ok zeroKey ∧
       parsePayloadInput ⟨t, none⟩ = .ok zeroInput ∧
       parsePayloadError ⟨t, none⟩ = .ok zeroError) := by
  constructor
  · intro t p
    refine ⟨decode_encode _, ?_⟩
    cases p <;>
      simp [payloadRoundTrips, NewMessage, marshalPayload, parsePayloadState,
        parsePayloadView, parsePayloadKey, parsePayloadInput, parsePayloadError,
        unmarshal_marshal_state, unmarshal_marshal_view, unmarshal_marshal_key,
        unmarshal_marshal_input, unmarshal_marshal_error]
  · intro t
    exact ⟨rfl, rfl, rfl, rfl, rfl⟩

/-- C1: against a model that implements only the state provider, `get_state`
is answered with a `state` response carrying the provider's snapshot, and
`get_view`, `send_key`, `send_input` are each answered with a
`not_supported` error response (whatever payload the request carries). -/
theorem c1_state_only_dispatch (m : CanvasModel) (s : StatePayload)
    (oc : Option (GoRes Unit)) (po : Option JValue)
    (hs : m.stateProvider = some (.ok s)) (hv : m.viewProvider = none)
    (hk : m.keyHandler = none) (hi : m.inputHandler = none) :
    handleMessage ⟨m, oc⟩ ⟨MsgGetState, po⟩ = .ok (NewMessage MsgState (.state s)) ∧
    handleMessage ⟨m, oc⟩ ⟨MsgGetView, po⟩ =
      .ok (sendError "not_supported" "model does not implement ViewProvider") ∧
    handleMessage ⟨m, oc⟩ ⟨MsgSendKey, po⟩ =
      .ok (sendError "not_supported" "model does not implement KeyHandler") ∧
    handleMessage ⟨m, oc⟩ ⟨MsgSendInput, po⟩ =
      .ok (sendError "not_supported" "model does not implement InputHandler") := by
  refine ⟨?_, ?_, ?_, ?_⟩ <;>
    simp [handleMessage, hs, hv, hk, hi, MsgGetState, MsgGetView, MsgSendKey,
      MsgSendInput, MsgClose]

/-- Witness for C1 at a concrete model exposing only a state provider. -/
theorem c1_state_only_dispatch_witness :
    handleMessage ⟨⟨some (.ok zeroState), none, none, none⟩, none⟩ ⟨MsgGetState, none⟩ =
      .ok (NewMessage MsgState (.state zeroState)) ∧
    handleMessage ⟨⟨some (.ok zeroState), none, none, none⟩, none⟩ ⟨MsgGetView, none⟩ =
      .ok (sendError "not_supported" "model does not implement ViewProvider") ∧
    handleMessage ⟨⟨some (.ok zeroState), none, none, none⟩, none⟩ ⟨MsgSendKey, none⟩ =
      .ok (sendError "not_supported" "model does not implement KeyHandler") ∧
    handleMessage ⟨⟨some (.ok zeroState), none, none, none⟩, none⟩ ⟨MsgSendInput, none⟩ =
      .ok (sendError "not_supported" "model does not implement InputHandler") :=
  c1_state_only_dispatch ⟨some (.ok zeroState), none, none, none⟩ zeroState
    none none rfl rfl rfl rfl

/-- C4: the code does NOT catch an uncontrolled failure in model capability
code — server.go contains no `recover`, so a panic raised by the state
provider propagates out of `handleMessage` and out of the connection's
read loop (terminating the connection goroutine and, per Go semantics for
unrecovered panics, the process), and no error response is produced. -/
theorem c4_panic_escapes :
    handleMessage ⟨⟨some (.panics "boom"), none, none, none⟩, none⟩
        (NewMessage MsgGetState .noPayload) = .panics "boom" ∧
    processConn ⟨⟨some (.panics "boom"), none, none, none⟩, none⟩
        [.json (encodeMessage (NewMessage MsgGetState .noPayload))] = .panics "boom" := by
  constructor
  · rfl
  · simp [processConn, handleLine, decode_encode]
    rfl

/-- C8: emitting an event type delivers the message to no connection and
performs no write — `SendEvent` builds the message, discards it, and
returns without error. -/
theorem c8_send_event_noop (t : MessageType) (p : Payload) :
    SendEvent t p = (.ok (), []) :=
  rfl

/-- C9: `SocketPath` is a pure total function of the id producing
`{socket_dir}/{id}.sock`, it is deterministic (equal ids give equal
paths), and it is injective over filesystem-safe ids. -/
theorem c9_socketpath_injective (tmpDir id1 id2 : String)
    (h1 : fsSafe id1) (h2 : fsSafe id2) :
    (∀ id : String,
       SocketPath tmpDir id = DefaultSocketDir tmpDir ++ "/" ++ id ++ ".sock") ∧
    (id1 = id2 → SocketPath tmpDir id1 = SocketPath tmpDir id2) ∧
    (SocketPath tmpDir id1 = SocketPath tmpDir id2 → id1 = id2) := by
  refine ⟨?_, ?_, ?_⟩
  · intro id
    simp [SocketPath, DefaultSocketDir, filepathJoin, String.ext_iff]
  · intro h
    rw [h]
  · intro h
    simp only [SocketPath, DefaultSocketDir, filepathJoin, String.ext_iff,
      String.data_append] at h
    have h' := List.append_cancel_right (List.append_cancel_left h)
    exact String.ext h'

/-- Witness for C9 at concrete filesystem-safe ids. -/
theorem c9_socketpath_injective_witness :
    fsSafe "alpha" ∧ fsSafe "beta" ∧
    (SocketPath "/tmp" "alpha" = SocketPath "/tmp" "beta" → "alpha" = "beta") ∧
    SocketPath "/tmp" "alpha" = "/tmp/opencode-canvas/alpha.sock" := by
  refine ⟨by decide, by decide, ?_, by decide⟩
  exact (c9_socketpath_injective "/tmp" "alpha" "beta" (by decide) (by decide)).2.2

/-- C3: when the required handler capability is present but itself reports
failure, the server answers `key_error` (for `send_key`) or `input_error`
(for `send_input`) carrying the handler's own error message, and the
connection's read loop continues with the next line — the failure never
terminates the connection task. -/
theorem c3_handler_failure_nonfatal (m : CanvasModel) (oc : Option (GoRes Unit))
    (kh : String → Int → GoRes (Option String)) (ih : String → GoRes (Option String))
    (kmsg imsg : Message) (ek ei : String)
    (hk : m.keyHandler = some kh) (hi : m.inputHandler = some ih)
    (hkt : kmsg.type = MsgSendKey) (hit : imsg.type = MsgSendInput)
    (hke : kh (looseKeyPayload kmsg).key (looseKeyPayload kmsg).rune = .ok (some ek))
    (hie : ih (looseInputPayload imsg).text = .ok (some ei)) :
    handleMessage ⟨m, oc⟩ kmsg = .ok (sendError "key_error" ek) ∧
    handleMessage ⟨m, oc⟩ imsg = .ok (sendError "input_error" ei) ∧
    (∀ rest, processConn ⟨m, oc⟩ (.json (encodeMessage kmsg) :: rest) =
       (processConn ⟨m, oc⟩ rest).map (fun ms => sendError "key_error" ek :: ms)) ∧
    (∀ rest, processConn ⟨m, oc⟩ (.json (encodeMessage imsg) :: rest) =
       (processConn ⟨m, oc⟩ rest).map (fun ms => sendError "input_error" ei :: ms)) := by
  have hkey : handleMessage ⟨m, oc⟩ kmsg = .ok (sendError "key_error" ek) := by
    simp [handleMessage, hkt, hk, hke, MsgGetState, MsgGetView, MsgSendKey,
      MsgSendInput, MsgClose]
  have hinput : handleMessage ⟨m, oc⟩ imsg = .ok (sendError "input_error" ei) := by
    simp [handleMessage, hit, hi, hie, MsgGetState, MsgGetView, MsgSendKey,
      MsgSendInput, MsgClose]
  refine ⟨hkey, hinput, ?_, ?_⟩ <;> intro rest <;>
    simp [processConn, handleLine, decode_encode, hkey, hinput]

/-- Witness for C3 at a concrete failing key handler and input handler. -/
theorem c3_handler_failure_nonfatal_witness :
    handleMessage
        ⟨⟨none, none, some (fun _ _ => .ok (some "key boom")),
          some (fun _ => .ok (some "input boom"))⟩, none⟩
        (NewMessage MsgSendKey (.key ⟨"enter", 0⟩)) =
      .ok (sendError "key_error" "key boom") ∧
    processConn
        ⟨⟨none, none, some (fun _ _ => .ok (some "key boom")),
          some (fun _ => .ok (some "input boom"))⟩, none⟩
        [.json (encodeMessage (NewMessage MsgSendKey (.key ⟨"enter", 0⟩)))] =
      .ok [sendError "key_error" "key boom"] := by
  have h := c3_handler_failure_nonfatal
    ⟨none, none, some (fun _ _ => .ok (some "key boom")),
      some (fun _ => .ok (some "input boom"))⟩ none
    (fun _ _ => .ok (some "key boom")) (fun _ => .ok (some "input boom"))
    (NewMessage MsgSendKey (.key ⟨"enter", 0⟩))
    (NewMessage MsgSendInput (.input ⟨"hello"⟩))
    "key boom" "input boom" rfl rfl rfl rfl rfl rfl
  exact ⟨h.1, by rw [h.2.2.1 []]; rfl⟩

/-- C5: a line that fails envelope decoding is answered with a
`parse_error` response and does not end the read loop; a following valid
`get_state` line is processed normally, so the two responses appear in
order: `parse_error`, then `state` (or `not_supported`). -/
theorem c5_parse_error_then_state (srv : ServerState) (e : String) :
    (∀ rest, processConn srv (.fail e :: rest) =
       (processConn srv rest).map (fun ms => sendError "parse_error" e :: ms)) ∧
    (∀ s, srv.model.stateProvider = some (.ok s) →
       processConn srv
           [.fail e, .json (encodeMessage (NewMessage MsgGetState .noPayload))] =
         .ok [sendError "parse_error" e, NewMessage MsgState (.state s)]) ∧
    (srv.model.stateProvider = none →
       processConn srv
           [.fail e, .json (encodeMessage (NewMessage MsgGetState .noPayload))] =
         .ok [sendError "parse_error" e,
              sendError "not_supported" "model does not implement StateProvider"]) := by
  refine ⟨fun rest => rfl, ?_, ?_⟩
  · intro s hs
    simp [processConn, handleLine, decode_encode, handleMessage, hs, NewMessage,
      marshalPayload, MsgGetState, GoRes.map]
  · intro hs
    simp [processConn, handleLine, decode_encode, handleMessage, hs, NewMessage,
      marshalPayload, MsgGetState, GoRes.map, sendError]

/-- Witness for C5: a junk line then `get_state` against a state-providing
model, and against a model with no capabilities. -/
theorem c5_parse_error_then_state_witness :
    processConn ⟨⟨some (.ok zeroState), none, none, none⟩, none⟩
        [.fail "invalid character", .json (encodeMessage (NewMessage MsgGetState .noPayload))] =
      .ok [sendError "parse_error" "invalid character",
           NewMessage MsgState (.state zeroState)] ∧
    processConn ⟨nilModel, none⟩
        [.fail "invalid character", .json (encodeMessage (NewMessage MsgGetState .noPayload))] =
      .ok [sendError "parse_error" "invalid character",
           sendError "not_supported" "model does not implement StateProvider"] :=
  ⟨(c5_parse_error_then_state ⟨⟨some (.ok zeroState), none, none, none⟩, none⟩
      "invalid character").2.1 zeroState rfl,
   (c5_parse_error_then_state ⟨nilModel, none⟩ "invalid character").2.2 rfl⟩

/-- C6 counterexample: a `close` call whose transport exchange succeeds and
whose decoded response has type `error` does NOT return a client-visible
error — `Client.Close` discards the response envelope and returns nil. -/
theorem c6_close_ignores_error_response :
    Close (.ok (NewMessage MsgError
        (.error ⟨"not_supported", "model does not implement StateProvider"⟩))) =
      .ok () := rfl

/-- C6 (amended): for the state, view, sendKey and sendInput calls, a
transport-successful exchange whose decoded response has type `error`
returns a client-visible error carrying the server's code and message
verbatim (formatted `code: message`); the close call instead discards the
response envelope and returns success. -/
theorem c6_error_response_verbatim (code msg : String) (resp : Message)
    (ht : resp.type = MsgError)
    (hp : resp.payload = some (marshalError ⟨code, msg⟩)) :
    GetState (.ok resp) = .error (code ++ ": " ++ msg) ∧
    GetView (.ok resp) = .error (code ++ ": " ++ msg) ∧
    SendKey (.ok resp) = .error (code ++ ": " ++ msg) ∧
    SendInput (.ok resp) = .error (code ++ ": " ++ msg) ∧
    Close (.ok resp) = .ok () := by
  refine ⟨?_, ?_, ?_, ?_, rfl⟩ <;>
    simp [GetState, GetView, SendKey, SendInput, clientSend, ht, hp,
      looseErrorPayload, marshalError, lookupField, MsgError]

/-- Witness for C6 (amended) at a concrete error response. -/
theorem c6_error_response_verbatim_witness :
    GetState (.ok (NewMessage MsgError (.error ⟨"not_supported", "nope"⟩))) =
      .error "not_supported: nope" ∧
    SendKey (.ok (NewMessage MsgError (.error ⟨"key_error", "bad key"⟩))) =
      .error "key_error: bad key" ∧
    Close (.ok (NewMessage MsgError (.error ⟨"not_supported", "nope"⟩))) = .ok () :=
  ⟨(c6_error_response_verbatim "not_supported" "nope"
      (NewMessage MsgError (.error ⟨"not_supported", "nope"⟩)) rfl rfl).1,
   (c6_error_response_verbatim "key_error" "bad key"
      (NewMessage MsgError (.error ⟨"key_error", "bad key"⟩)) rfl rfl).2.2.1,
   (c6_error_response_verbatim "not_supported" "nope"
      (NewMessage MsgError (.error ⟨"not_supported", "nope"⟩)) rfl rfl).2.2.2.2⟩

theorem ping_true_iff (t : TransportResult) :
    Ping t = true ↔ ∃ s, GetState t = .ok s := by
  unfold Ping
  cases h : GetState t <;> simp

/-- C7: `Ping` returns true exactly when the `GetState` call succeeds; in
particular it is false when no listener is bound at the id's address, true
when a listener is bound and the registered model has a (normally
returning) state provider, and false when a listener is bound but the
model lacks a state provider. -/
theorem c7_ping_iff_state_success (net : Network) :
    (PingNet net = true ↔ ∃ s, GetState (stateExchange net) = .ok s) ∧
    (net = none → PingNet net = false) ∧
    (∀ srv s, net = some srv → srv.model.stateProvider = some (.ok s) →
       PingNet net = true) ∧
    (∀ srv, net = some srv → srv.model.stateProvider = none →
       PingNet net = false) := by
  refine ⟨ping_true_iff _, ?_, ?_, ?_⟩
  · intro h
    subst h
    rfl
  · intro srv s hnet hsp
    subst hnet
    simp [PingNet, Ping, stateExchange, handleMessage, hsp, NewMessage,
      marshalPayload, MsgGetState, decode_encode, GetState, clientSend,
      MsgState, MsgError, parsePayloadState, unmarshal_marshal_state]
  · intro srv hnet hsp
    subst hnet
    simp [PingNet, Ping, stateExchange, handleMessage, hsp, NewMessage,
      marshalPayload, MsgGetState, decode_encode, GetState, clientSend,
      sendError, marshalError, MsgError]

/-- Witness for C7: no listener, a listener with a state provider, and a
listener whose model lacks one. -/
theorem c7_ping_iff_state_success_witness :
    PingNet none = false ∧
    PingNet (some ⟨⟨some (.ok zeroState), none, none, none⟩, none⟩) = true ∧
    PingNet (some ⟨nilModel, none⟩) = false :=
  ⟨(c7_ping_iff_state_success none).2.1 rfl,
   (c7_ping_iff_state_success (some ⟨⟨some (.ok zeroState), none, none, none⟩, none⟩)).2.2.1
     _ zeroState rfl rfl,
   (c7_ping_iff_state_success (some ⟨nilModel, none⟩)).2.2.2 _ rfl rfl⟩

/-- C10: the client's `SendKey` builds `KeyPayload{Key: key}` only, so the
`rune` field is omitted from the wire (`rune,omitempty` at its zero
value), the server's best-effort payload parse recovers `(key, 0)`, and a
present key handler is always invoked with rune `0` for client-initiated
`send_key` requests. -/
theorem c10_client_sendkey_rune_zero (key : String) :
    (clientSendKeyMsg key).payload = some (.obj [("key", .str key)]) ∧
    looseKeyPayload (clientSendKeyMsg key) = ⟨key, 0⟩ ∧
    (∀ (m : CanvasModel) (oc : Option (GoRes Unit))
       (kh : String → Int → GoRes (Option String)), m.keyHandler = some kh →
       handleMessage ⟨m, oc⟩ (clientSendKeyMsg key) =
         match kh key 0 with
         | .ok none => .ok (NewMessage MsgAck .noPayload)
         | .ok (some e) => .ok (sendError "key_error" e)
         | .panics e => .panics e) := by
  have hwire : (clientSendKeyMsg key).payload = some (.obj [("key", .str key)]) := by
    simp [clientSendKeyMsg, NewMessage, marshalPayload, marshalKey]
  have hloose : looseKeyPayload (clientSendKeyMsg key) = ⟨key, 0⟩ := by
    simp [looseKeyPayload, hwire, lookupField]
  refine ⟨hwire, hloose, ?_⟩
  intro m oc kh hkh
  cases hres : kh key 0 with
  | ok a =>
      cases a <;>
        simp [handleMessage, clientSendKeyMsg, NewMessage, marshalPayload,
          MsgGetState, MsgGetView, MsgSendKey, hkh, looseKeyPayload, marshalKey,
          lookupField, hres]
  | panics e =>
      simp [handleMessage, clientSendKeyMsg, NewMessage, marshalPayload,
        MsgGetState, MsgGetView, MsgSendKey, hkh, looseKeyPayload, marshalKey,
        lookupField, hres]

/-- Witness for C10 at key "enter" and an accepting key handler. -/
theorem c10_client_sendkey_rune_zero_witness :
    (clientSendKeyMsg "enter").payload = some (.obj [("key", .str "enter")]) ∧
    handleMessage ⟨⟨none, none, some (fun _ _ => .ok none), none⟩, none⟩
        (clientSendKeyMsg "enter") = .ok (NewMessage MsgAck .noPayload) :=
  ⟨(c10_client_sendkey_rune_zero "enter").1,
   (c10_client_sendkey_rune_zero "enter").2.2
     ⟨none, none, some (fun _ _ => .ok none), none⟩ none (fun _ _ => .ok none) rfl⟩

end Canvas
